import Mathlib

/-!
Verification of the barcode-scanner core (`src/barcode.py`, `src/app.py`)
against its natural-language specification.

Shallow embedding conventions:
* Python `None` / absent dictionary keys become `Option.none`.
* Wall-clock times (`time.time()` values) are modelled as rationals.
* JSON scalar values that the code only moves around (never computes with)
  are modelled as `String`.
* HTTP interactions are modelled by a `FetchResult` value describing the
  outcome of one `requests.get` call: `error` covers every exception the
  `try` blocks absorb (timeout, connection failure, malformed JSON, any
  attribute error while digging into the parsed body), `ok status body`
  a completed response whose body parsed to the given structured value.
* External library calls (OpenCV transforms, pyzbar decoding) are opaque
  total functions supplied as parameters.
-/

namespace BarcodeScanner

/-- Re-scan suppression state of `EnhancedBarcodeScanner` (`barcode.py`,
`__init__`): `self.last_scanned = None`, `self.last_scan_time = 0`,
`self.scan_cooldown = 2`. -/
structure GateState where
  last_scanned : Option String := none
  last_scan_time : ℚ := 0
  scan_cooldown : ℚ := 2
  deriving DecidableEq

/-- The gate check and update of `barcode.py` lines 285-290:
`if (scan_key != self.last_scanned or current_time - self.last_scan_time >
self.scan_cooldown): self.last_scanned = scan_key; self.last_scan_time =
current_time`.  Returns the decision together with the state after the call.
In Python a `str` is always `!=` `None`, which the `Option` inequality
reproduces. -/
def shouldTrigger (s : GateState) (key : String) (now : ℚ) : Bool × GateState :=
  if some key ≠ s.last_scanned ∨ now - s.last_scan_time > s.scan_cooldown then
    (true, { s with last_scanned := some key, last_scan_time := now })
  else
    (false, s)

end BarcodeScanner

namespace BarcodeScanner

/-- Outcome of one `requests.get(url, timeout=5)` call together with the
parsing of its body.  `error` stands for every exception the surrounding
`try` block absorbs: timeout, connection failure, `response.json()` raising
on malformed JSON, or an attribute error while digging into an unexpected
JSON shape.  `ok statusCode body` is a completed response whose body parsed
to the structured value `body` (the body is only inspected when
`statusCode = 200`). -/
inductive FetchResult (α : Type) where
  | error : FetchResult α
  | ok (statusCode : Nat) (body : α) : FetchResult α
  deriving DecidableEq

/-- The `nutriments` object of an OpenFoodFacts response; `none` models an
absent key, scalar JSON values are modelled as strings. -/
structure OFFNutriments where
  energy_kcal_100g : Option String := none
  fat_100g : Option String := none
  carbohydrates_100g : Option String := none
  proteins_100g : Option String := none
  deriving DecidableEq

/-- The `product` object of an OpenFoodFacts response. -/
structure OFFProduct where
  product_name : Option String := none
  brands : Option String := none
  categories : Option String := none
  countries : Option String := none
  ingredients_text : Option String := none
  nutriments : Option OFFNutriments := none
  image_url : Option String := none
  deriving DecidableEq

/-- Top level of an OpenFoodFacts response body:
`{status: 0|1, product?: {...}}`. -/
structure OFFResponse where
  status : Option Nat := none
  product : Option OFFProduct := none
  deriving DecidableEq

/-- One element of the `items` array of a UPCItemDB response body. -/
structure UPCItem where
  title : Option String := none
  brand : Option String := none
  category : Option String := none
  description : Option String := none
  deriving DecidableEq

/-- Top level of a UPCItemDB response body `{items: [...]}`; an absent or
non-truthy `items` key is modelled by the empty list. -/
structure UPCResponse where
  items : List UPCItem := []
  deriving DecidableEq

/-- The `nutrition` sub-dictionary the resolver builds from the
OpenFoodFacts `nutriments`. -/
structure Nutrition where
  energy : String
  fat : String
  carbs : String
  protein : String
  deriving DecidableEq

/-- The `product_info` dictionary assembled by `get_product_info`.  Each
`Option` field models presence of the corresponding dictionary key; the
inner `Option` of `image_url` models the Python value (which may itself be
`None`). -/
structure ProductInfo where
  barcode : String
  found : Bool
  name : Option String := none
  brand : Option String := none
  category : Option String := none
  origin : Option String := none
  ingredients : Option String := none
  nutrition : Option Nutrition := none
  description : Option String := none
  image_url : Option (Option String) := none
  deriving DecidableEq

/-- First `try` block of `get_product_info` (`barcode.py` lines 96-122 and
identically `app.py` lines 35-59): on a 200 response whose body has
`status == 1` it builds the updated `product_info` and returns it;
every other outcome falls through to the next source (`none`). -/
def offLookup (barcode : String) (off : FetchResult OFFResponse) :
    Option ProductInfo :=
  match off with
  | .error => none
  | .ok statusCode data =>
    if statusCode = 200 then
      if data.status = some 1 then
        let product := data.product.getD { }
        some { barcode := barcode, found := true,
               name := some (product.product_name.getD "Unknown Product"),
               brand := some (product.brands.getD "Unknown Brand"),
               category := some (product.categories.getD "Unknown Category"),
               origin := some (product.countries.getD "Unknown"),
               ingredients := some (product.ingredients_text.getD "N/A"),
               nutrition := some
                 { energy := (product.nutriments.getD { }).energy_kcal_100g.getD "N/A",
                   fat := (product.nutriments.getD { }).fat_100g.getD "N/A",
                   carbs := (product.nutriments.getD { }).carbohydrates_100g.getD "N/A",
                   protein := (product.nutriments.getD { }).proteins_100g.getD "N/A" },
               image_url := some product.image_url }
      else none
    else none

/-- Second `try` block of `get_product_info` in `barcode.py` (lines
125-143): on a 200 response with a non-empty `items` array it maps the
first item — note the constant `origin := "N/A"` — and returns; every
other outcome falls through (`none`). -/
def upcLookup (barcode : String) (upc : FetchResult UPCResponse) :
    Option ProductInfo :=
  match upc with
  | .error => none
  | .ok statusCode data =>
    if statusCode = 200 then
      match data.items with
      | item :: _ =>
        some { barcode := barcode, found := true,
               name := some (item.title.getD "Unknown Product"),
               brand := some (item.brand.getD "Unknown Brand"),
               category := some (item.category.getD "Unknown Category"),
               origin := some "N/A",
               description := some (item.description.getD "N/A") }
      | [] => none
    else none

/-- UPCItemDB fallback of `app.py` (lines 62-78): same as `barcode.py`
except that it does not set an `origin` key. -/
def appUpcLookup (barcode : String) (upc : FetchResult UPCResponse) :
    Option ProductInfo :=
  match upc with
  | .error => none
  | .ok statusCode data =>
    if statusCode = 200 then
      match data.items with
      | item :: _ =>
        some { barcode := barcode, found := true,
               name := some (item.title.getD "Unknown Product"),
               brand := some (item.brand.getD "Unknown Brand"),
               category := some (item.category.getD "Unknown Category"),
               description := some (item.description.getD "N/A") }
      | [] => none
    else none

/-- `EnhancedBarcodeScanner.get_product_info` (`barcode.py` lines 86-153):
try OpenFoodFacts; if its block returned, done; otherwise try UPCItemDB;
otherwise return the initial `{'barcode': barcode, 'found': False}`.  The
third `try` block (Barcode Lookup API) issues no request and is dead code.
The second component records whether the UPCItemDB request was issued,
which happens exactly when the first block did not return. -/
def get_product_info (barcode : String) (off : FetchResult OFFResponse)
    (upc : FetchResult UPCResponse) : ProductInfo × Bool :=
  match offLookup barcode off with
  | some info => (info, false)
  | none =>
    match upcLookup barcode upc with
    | some info => (info, true)
    | none => ({ barcode := barcode, found := false }, true)

/-- `get_product_info` of `app.py` (lines 27-80): identical chain, with the
`app.py` field mapping for the UPCItemDB fallback. -/
def app_get_product_info (barcode : String) (off : FetchResult OFFResponse)
    (upc : FetchResult UPCResponse) : ProductInfo × Bool :=
  match offLookup barcode off with
  | some info => (info, false)
  | none =>
    match appUpcLookup barcode upc with
    | some info => (info, true)
    | none => ({ barcode := barcode, found := false }, true)

/-- One entry of `scan_history`.  In `barcode.py` (lines 293-297) the
appended dictionary has exactly the keys `time`, `type`, `data`, so there
`info = none`; in `app.py` (lines 133-136) it additionally has the key
`info` holding the resolved product info, modelled by `info = some _`. -/
structure ScanRecord where
  time : String
  type : String
  data : String
  info : Option ProductInfo := none
  deriving DecidableEq

/-- The mutable attributes of `EnhancedBarcodeScanner` relevant to the
per-detection step: the gate slot (`last_scanned`, `last_scan_time`,
`scan_cooldown`) and `scan_history`. -/
structure ScannerState where
  gate : GateState := { }
  scan_history : List ScanRecord := []
  deriving DecidableEq

/-- The body of the per-barcode loop of `EnhancedBarcodeScanner.run`
(`barcode.py` lines 281-301): build `scan_key`, run the gate check; on a
trigger, update the gate slot, append `{'time': ..., 'type': barcode.type,
'data': barcode_data}` to `scan_history` — note: without the product info —
then fetch (and display) the product info; on suppression, do nothing.
`timeStr` is the formatted `time.strftime` string, `now` the
`time.time()` value, `off`/`upc` the outcomes of the two HTTP calls the
lookup would make. -/
def processDetection (s : ScannerState) (btype bdata : String) (now : ℚ)
    (timeStr : String) (off : FetchResult OFFResponse)
    (upc : FetchResult UPCResponse) : ScannerState × Option ProductInfo :=
  let scan_key := btype ++ ":" ++ bdata
  let r := shouldTrigger s.gate scan_key now
  if r.1 then
    ({ gate := r.2,
       scan_history := s.scan_history ++
         [{ time := timeStr, type := btype, data := bdata }] },
     some (get_product_info bdata off upc).1)
  else
    (s, none)

/-- The per-detection body of the Streamlit app (`app.py` lines 127-136):
if the payload already occurs in `scan_history` (the guard inspects only
`h["data"]`), do nothing; otherwise call `get_product_info` and append a
record that includes the resolved info.  The second component records
whether the lookup was performed. -/
def appProcessDetection (history : List ScanRecord) (btype bdata : String)
    (timeStr : String) (off : FetchResult OFFResponse)
    (upc : FetchResult UPCResponse) : List ScanRecord × Bool :=
  if bdata ∈ history.map (fun h => h.data) then
    (history, false)
  else
    (history ++
       [{ time := timeStr, type := btype, data := bdata,
          info := some (app_get_product_info bdata off upc).1 }],
     true)

/-- `self.scan_history.append(record)`: the only mutation ever applied to
the history in either source file. -/
def appendRecord (h : List ScanRecord) (r : ScanRecord) : List ScanRecord :=
  h ++ [r]

/-- Modelled from the spec: `recent(n)` returns the last n records in
insertion order.  Neither source file names this operation; `barcode.py`
line 343 realizes the instance `n = 10` as the slice
`self.scan_history[-10:]`, which for a positive `n` agrees with dropping
all but the last `n` elements. -/
def recent (h : List ScanRecord) (n : Nat) : List ScanRecord :=
  h.drop (h.length - n)

/-- One raw detection as returned by `pyzbar.decode`: symbology
(`barcode.type`), decoded payload (`barcode.data.decode('utf-8', ...)`),
and the rest of the pyzbar object (polygon, rect, ...) abstracted as a
geometry value of type `G`. -/
structure RawDetection (G : Type) where
  type : String
  data : String
  geom : G
  deriving DecidableEq

/-- The deduplication key `f"{barcode_type}:{barcode_data}"` of
`barcode.py` line 77. -/
def scanKey {G : Type} (b : RawDetection G) : String :=
  b.type ++ ":" ++ b.data

/-- The body of the inner loop of `detect_barcodes_enhanced` (`barcode.py`
lines 74-82), threading the state `(unique_barcodes keys, all_barcodes)`:
a detection whose key was already seen is dropped, otherwise its key and
the detection itself (geometry included) are appended. -/
def dedupStep {G : Type} (st : List String × List (RawDetection G))
    (b : RawDetection G) : List String × List (RawDetection G) :=
  if scanKey b ∈ st.1 then st else (st.1 ++ [scanKey b], st.2 ++ [b])

/-- The nested loops of `detect_barcodes_enhanced` (`barcode.py` lines
72-84): for each preprocessed variant in pipeline order, for each raw
detection of that variant, run `dedupStep`; return `all_barcodes`. -/
def dedupDetections {G : Type}
    (variantDetections : List (List (RawDetection G))) :
    List (RawDetection G) :=
  (variantDetections.foldl (fun st dets => dets.foldl dedupStep st)
    ([], [])).2

/-- The OpenCV operations `preprocess_frame` invokes, abstracted as total
functions on an opaque frame type: `cv2.cvtColor(·, COLOR_BGR2GRAY)`,
`cv2.GaussianBlur(·, (5,5), 0)`, `cv2.adaptiveThreshold(·, 255,
ADAPTIVE_THRESH_GAUSSIAN_C, THRESH_BINARY, 11, 2)`, `cv2.threshold(·, 127,
255, THRESH_BINARY)`, `cv2.threshold(·, 0, 255, THRESH_BINARY+THRESH_OTSU)`,
`createCLAHE(2.0, (8,8)).apply`, and `cv2.filter2D` with the sharpening
kernel. -/
structure CV2 (Frame : Type) where
  cvtColorGray : Frame → Frame
  gaussianBlur : Frame → Frame
  adaptiveThreshold : Frame → Frame
  binaryThreshold : Frame → Frame
  otsuThreshold : Frame → Frame
  claheApply : Frame → Frame
  sharpen : Frame → Frame

/-- `EnhancedBarcodeScanner.preprocess_frame` (`barcode.py` lines 14-59):
append the original frame, its grayscale, and six further transforms of
the grayscale, each with its label, in the fixed source order. -/
def preprocess_frame {Frame : Type} (cv2 : CV2 Frame) (frame : Frame) :
    List (String × Frame) :=
  let gray := cv2.cvtColorGray frame
  [("Original", frame),
   ("Grayscale", gray),
   ("Blurred", cv2.gaussianBlur gray),
   ("Adaptive Threshold", cv2.adaptiveThreshold gray),
   ("Binary", cv2.binaryThreshold gray),
   ("Otsu", cv2.otsuThreshold gray),
   ("CLAHE", cv2.claheApply gray),
   ("Sharpened", cv2.sharpen gray)]

/-- `detect_barcodes_enhanced` composed with preprocessing (`barcode.py`
lines 61-84): decode every preprocessed variant with the external decode
capability and deduplicate in pipeline order. -/
def detect_barcodes_enhanced {Frame G : Type} (cv2 : CV2 Frame)
    (decode : Frame → List (RawDetection G)) (frame : Frame) :
    List (RawDetection G) :=
  dedupDetections ((preprocess_frame cv2 frame).map (fun v => decode v.2))

end BarcodeScanner

namespace BarcodeScanner

/-- C1: with cooldown = 2, `shouldTrigger key now` returns true and sets
`(lastKey, lastTimestamp)` to `(key, now)` exactly when the slot is empty,
the key differs from the stored key, or more than 2 seconds have elapsed;
in every other case it returns false and leaves the state unchanged. -/
theorem C1_gate_cooldown (s : GateState) (key : String) (now : ℚ)
    (hcd : s.scan_cooldown = 2) :
    (shouldTrigger s key now =
        (true, { s with last_scanned := some key, last_scan_time := now }) ↔
      s.last_scanned = none ∨ s.last_scanned ≠ some key ∨
        now - s.last_scan_time > 2) ∧
    (s.last_scanned = some key ∧ ¬ now - s.last_scan_time > 2 →
      shouldTrigger s key now = (false, s)) := by
  constructor
  · constructor
    · intro h
      by_cases hc : some key ≠ s.last_scanned ∨
          now - s.last_scan_time > s.scan_cooldown
      · rcases hc with hc | hc
        · exact Or.inr (Or.inl fun he => hc he.symm)
        · exact Or.inr (Or.inr (by rw [← hcd]; exact hc))
      · have hfalse : shouldTrigger s key now = (false, s) := by
          simp only [shouldTrigger, if_neg hc]
        rw [hfalse] at h
        simp at h
    · intro hcl
      have hc : some key ≠ s.last_scanned ∨
          now - s.last_scan_time > s.scan_cooldown := by
        rcases hcl with h | h | h
        · exact Or.inl (by simp [h])
        · exact Or.inl fun he => h he.symm
        · exact Or.inr (by rw [hcd]; exact h)
      simp only [shouldTrigger, if_pos hc]
  · rintro ⟨hk, ht⟩
    have hc : ¬ (some key ≠ s.last_scanned ∨
        now - s.last_scan_time > s.scan_cooldown) := by
      rw [hk, hcd]
      simp [ht]
    simp only [shouldTrigger, if_neg hc]

/-- Witness for C1: from the initial state, a first scan triggers and
records the key and time. -/
theorem C1_gate_cooldown_witness :
    shouldTrigger { } "EAN13:5901234123457" 0 =
      (true, { last_scanned := some "EAN13:5901234123457",
               last_scan_time := 0, scan_cooldown := 2 }) :=
  (C1_gate_cooldown { } "EAN13:5901234123457" 0 rfl).1.mpr (Or.inl rfl)

/-- C5: from the empty gate, `K1` triggers at `t0`, `K2` triggers at
`t0 + 0.1` (different key), and `K1` triggers again at `t0 + 0.2`, because
each triggering call overwrote the single `(lastKey, lastTimestamp)` slot:
there is no per-key cooldown map. -/
theorem C5_gate_single_slot (K1 K2 : String) (t0 : ℚ) (hne : K1 ≠ K2) :
    (shouldTrigger { } K1 t0).1 = true ∧
    (shouldTrigger (shouldTrigger { } K1 t0).2 K2 (t0 + 1/10)).1 = true ∧
    (shouldTrigger (shouldTrigger { } K1 t0).2 K2 (t0 + 1/10)).2.last_scanned
        = some K2 ∧
    (shouldTrigger
        (shouldTrigger (shouldTrigger { } K1 t0).2 K2 (t0 + 1/10)).2
        K1 (t0 + 2/10)).1 = true := by
  have h1 : shouldTrigger { } K1 t0 =
      (true, { last_scanned := some K1, last_scan_time := t0 }) := by
    rw [shouldTrigger, if_pos (Or.inl (by simp))]
  have h2 : shouldTrigger
      ({ last_scanned := some K1, last_scan_time := t0 } : GateState)
      K2 (t0 + 1/10) =
      (true, { last_scanned := some K2, last_scan_time := t0 + 1/10 }) := by
    rw [shouldTrigger, if_pos (Or.inl (by simp [hne.symm]))]
  have h3 : shouldTrigger
      ({ last_scanned := some K2, last_scan_time := t0 + 1/10 } : GateState)
      K1 (t0 + 2/10) =
      (true, { last_scanned := some K1, last_scan_time := t0 + 2/10 }) := by
    rw [shouldTrigger, if_pos (Or.inl (by simp [hne]))]
  refine ⟨?_, ?_, ?_, ?_⟩
  · rw [h1]
  · rw [h1]
    show (shouldTrigger ({ last_scanned := some K1, last_scan_time := t0 } :
        GateState) K2 (t0 + 1/10)).1 = true
    rw [h2]
  · rw [h1]
    show (shouldTrigger ({ last_scanned := some K1, last_scan_time := t0 } :
        GateState) K2 (t0 + 1/10)).2.last_scanned = some K2
    rw [h2]
  · rw [h1]
    show (shouldTrigger
        (shouldTrigger ({ last_scanned := some K1, last_scan_time := t0 } :
          GateState) K2 (t0 + 1/10)).2 K1 (t0 + 2/10)).1 = true
    rw [h2]
    show (shouldTrigger
        ({ last_scanned := some K2, last_scan_time := t0 + 1/10 } : GateState)
        K1 (t0 + 2/10)).1 = true
    rw [h3]

/-- Witness for C5 at two concrete distinct keys. -/
theorem C5_gate_single_slot_witness :
    (shouldTrigger { } "QRCODE:a" 0).1 = true ∧
    (shouldTrigger (shouldTrigger { } "QRCODE:a" 0).2 "EAN13:b" (0 + 1/10)).1
        = true ∧
    (shouldTrigger (shouldTrigger { } "QRCODE:a" 0).2 "EAN13:b"
        (0 + 1/10)).2.last_scanned = some "EAN13:b" ∧
    (shouldTrigger
        (shouldTrigger (shouldTrigger { } "QRCODE:a" 0).2 "EAN13:b"
          (0 + 1/10)).2
        "QRCODE:a" (0 + 2/10)).1 = true :=
  C5_gate_single_slot "QRCODE:a" "EAN13:b" 0 (by decide)

end BarcodeScanner

namespace BarcodeScanner

/-- Any product info returned by the OpenFoodFacts block carries the looked
up code and `found = true`. -/
theorem offLookup_some {code : String} {off : FetchResult OFFResponse}
    {info : ProductInfo} (h : offLookup code off = some info) :
    info.barcode = code ∧ info.found = true := by
  cases off with
  | error => simp [offLookup] at h
  | ok statusCode data =>
    simp only [offLookup] at h
    by_cases h200 : statusCode = 200
    · rw [if_pos h200] at h
      by_cases hs : data.status = some 1
      · rw [if_pos hs] at h
        injection h with h
        subst h
        exact ⟨rfl, rfl⟩
      · rw [if_neg hs] at h
        simp at h
    · rw [if_neg h200] at h
      simp at h

/-- Any product info returned by the UPCItemDB block of `barcode.py`
carries the looked up code and `found = true`. -/
theorem upcLookup_some {code : String} {upc : FetchResult UPCResponse}
    {info : ProductInfo} (h : upcLookup code upc = some info) :
    info.barcode = code ∧ info.found = true := by
  cases upc with
  | error => simp [upcLookup] at h
  | ok statusCode data =>
    simp only [upcLookup] at h
    by_cases h200 : statusCode = 200
    · rw [if_pos h200] at h
      cases hitems : data.items with
      | nil =>
        rw [hitems] at h
        simp at h
      | cons item rest =>
        rw [hitems] at h
        injection h with h
        subst h
        exact ⟨rfl, rfl⟩
    · rw [if_neg h200] at h
      simp at h

/-- Any product info returned by the UPCItemDB block of `app.py` carries
the looked up code and `found = true`. -/
theorem appUpcLookup_some {code : String} {upc : FetchResult UPCResponse}
    {info : ProductInfo} (h : appUpcLookup code upc = some info) :
    info.barcode = code ∧ info.found = true := by
  cases upc with
  | error => simp [appUpcLookup] at h
  | ok statusCode data =>
    simp only [appUpcLookup] at h
    by_cases h200 : statusCode = 200
    · rw [if_pos h200] at h
      cases hitems : data.items with
      | nil =>
        rw [hitems] at h
        simp at h
      | cons item rest =>
        rw [hitems] at h
        injection h with h
        subst h
        exact ⟨rfl, rfl⟩
    · rw [if_neg h200] at h
      simp at h

end BarcodeScanner

namespace BarcodeScanner

/-- C3: the resolver tries the food catalog first; a well-formed found
response there is returned as-is with the UPC source never invoked (second
component `false`); any other food-catalog outcome causes the UPC source
to be queried (second component `true`); and when both sources are
exhausted without a found result the resolver returns exactly
`{barcode: code, found: false}`. -/
theorem C3_resolver_chain (code : String) (off : FetchResult OFFResponse)
    (upc : FetchResult UPCResponse) :
    (∀ info, offLookup code off = some info →
      get_product_info code off upc = (info, false)) ∧
    (offLookup code off = none →
      (get_product_info code off upc).2 = true) ∧
    (offLookup code off = none → upcLookup code upc = none →
      get_product_info code off upc =
        ({ barcode := code, found := false }, true)) := by
  refine ⟨?_, ?_, ?_⟩
  · intro info h
    simp [get_product_info, h]
  · intro h
    cases hu : upcLookup code upc <;> simp [get_product_info, h, hu]
  · intro h hu
    simp [get_product_info, h, hu]

/-- Witness for C3: a found OpenFoodFacts response (status 1, empty
product object) short-circuits with the default field mapping and no UPC
call. -/
theorem C3_resolver_chain_witness :
    get_product_info "123" (FetchResult.ok 200 { status := some 1 })
        FetchResult.error =
      ({ barcode := "123", found := true, name := some "Unknown Product",
         brand := some "Unknown Brand",
         category := some "Unknown Category", origin := some "Unknown",
         ingredients := some "N/A",
         nutrition := some { energy := "N/A", fat := "N/A", carbs := "N/A",
                             protein := "N/A" },
         image_url := some none }, false) :=
  (C3_resolver_chain "123" (FetchResult.ok 200 { status := some 1 })
    FetchResult.error).1 _ rfl

/-- C4: for every combination of per-source outcomes the resolver returns
a ProductInfo for the requested code (the embedding is a total function:
both HTTP blocks sit in `try` arms whose exceptions are absorbed); a
failed or malformed food-catalog attempt falls through to the UPC source;
and whenever the result is not found it is exactly
`{barcode: code, found: false}`. -/
theorem C4_resolver_total (code : String) (off : FetchResult OFFResponse)
    (upc : FetchResult UPCResponse) :
    (get_product_info code off upc).1.barcode = code ∧
    (off = FetchResult.error → (get_product_info code off upc).2 = true) ∧
    ((get_product_info code off upc).1.found = false →
      get_product_info code off upc =
        ({ barcode := code, found := false }, true)) := by
  cases ho : offLookup code off with
  | some info =>
    have hi := offLookup_some ho
    refine ⟨?_, ?_, ?_⟩
    · simp [get_product_info, ho, hi.1]
    · intro he
      subst he
      simp [offLookup] at ho
    · intro hf
      have h1 : (get_product_info code off upc).1 = info := by
        simp [get_product_info, ho]
      rw [h1, hi.2] at hf
      simp at hf
  | none =>
    cases hu : upcLookup code upc with
    | some info =>
      have hi := upcLookup_some hu
      refine ⟨?_, ?_, ?_⟩
      · simp [get_product_info, ho, hu, hi.1]
      · intro _
        simp [get_product_info, ho, hu]
      · intro hf
        have h1 : (get_product_info code off upc).1 = info := by
          simp [get_product_info, ho, hu]
        rw [h1, hi.2] at hf
        simp at hf
    | none =>
      refine ⟨?_, ?_, ?_⟩ <;> simp [get_product_info, ho, hu]

/-- Witness for C4: when both sources fail with transport errors the call
still returns, for the requested code, the not-found value. -/
theorem C4_resolver_total_witness :
    (get_product_info "9" FetchResult.error FetchResult.error).1.barcode
        = "9" ∧
    (get_product_info "9" FetchResult.error FetchResult.error).2 = true ∧
    get_product_info "9" FetchResult.error FetchResult.error =
      ({ barcode := "9", found := false }, true) :=
  ⟨(C4_resolver_total "9" FetchResult.error FetchResult.error).1,
   (C4_resolver_total "9" FetchResult.error FetchResult.error).2.1 rfl,
   (C4_resolver_total "9" FetchResult.error FetchResult.error).2.2 rfl⟩

end BarcodeScanner

namespace BarcodeScanner

/-- C7 counterexample: resolving through the generic UPC catalog in
`barcode.py` yields a ProductInfo whose `origin` key is present (set to
the constant placeholder string), so the result does not carry only
name, brand, category and description: the claim that no origin field is
produced by the generic source fails on `barcode.py` line 138. -/
theorem C7_counterexample :
    (get_product_info "0001" FetchResult.error
        (FetchResult.ok 200 { items := [{ }] })).1.origin ≠ none ∧
    (get_product_info "0001" FetchResult.error
        (FetchResult.ok 200 { items := [{ }] })).1.origin = some "N/A" :=
  ⟨by decide, rfl⟩

/-- C7 (amended): when the food catalog does not resolve the code and the
generic UPC catalog returns a found response, the resulting ProductInfo
carries exactly name, brand, category and description mapped from the
first item and no nutrition, ingredients or image data; `barcode.py`
additionally sets `origin` to the constant placeholder `"N/A"` (not data
from the source), while `app.py` sets no origin at all.  Only the
food-catalog source yields nutrition, ingredients and sourced origin. -/
theorem C7_amended_upc_mapping (code : String) (off : FetchResult OFFResponse)
    (item : UPCItem) (rest : List UPCItem)
    (hoff : offLookup code off = none) :
    (get_product_info code off
        (FetchResult.ok 200 { items := item :: rest })).1 =
      { barcode := code, found := true,
        name := some (item.title.getD "Unknown Product"),
        brand := some (item.brand.getD "Unknown Brand"),
        category := some (item.category.getD "Unknown Category"),
        origin := some "N/A",
        description := some (item.description.getD "N/A") } ∧
    (app_get_product_info code off
        (FetchResult.ok 200 { items := item :: rest })).1 =
      { barcode := code, found := true,
        name := some (item.title.getD "Unknown Product"),
        brand := some (item.brand.getD "Unknown Brand"),
        category := some (item.category.getD "Unknown Category"),
        description := some (item.description.getD "N/A") } := by
  constructor
  · simp [get_product_info, hoff, upcLookup]
  · simp [app_get_product_info, hoff, appUpcLookup]

/-- Witness for the amended C7 at a concrete item. -/
theorem C7_amended_upc_mapping_witness :
    (get_product_info "42" FetchResult.error
        (FetchResult.ok 200 { items := [{ title := some "Pen" }] })).1 =
      { barcode := "42", found := true, name := some "Pen",
        brand := some "Unknown Brand", category := some "Unknown Category",
        origin := some "N/A", description := some "N/A" } :=
  (C7_amended_upc_mapping "42" FetchResult.error { title := some "Pen" } []
    rfl).1

/-- C6 counterexample: in `barcode.py` (lines 293-297) the record appended
for an accepted trigger holds only the formatted time, the symbology and
the payload — the resolved product info is displayed but never stored, so
the appended record does not contain it. -/
theorem C6_counterexample :
    (processDetection { } "EAN13" "5901234123457" 0 "12:00:00"
        FetchResult.error FetchResult.error).1.scan_history =
      [{ time := "12:00:00", type := "EAN13", data := "5901234123457",
         info := none }] := by
  rfl

/-- C6 (amended): exactly one record is appended per accepted trigger; in
`barcode.py` it contains the timestamp, the symbology and the payload but
not the resolved product info, while in `app.py` the appended record
additionally contains the resolved product info. -/
theorem C6_amended_record_shape (s : ScannerState) (btype bdata : String)
    (now : ℚ) (timeStr : String) (off : FetchResult OFFResponse)
    (upc : FetchResult UPCResponse)
    (htrig : (shouldTrigger s.gate (btype ++ ":" ++ bdata) now).1 = true)
    (history : List ScanRecord)
    (hnew : bdata ∉ history.map (fun h => h.data)) :
    (processDetection s btype bdata now timeStr off upc).1.scan_history =
      s.scan_history ++
        [{ time := timeStr, type := btype, data := bdata, info := none }] ∧
    (appProcessDetection history btype bdata timeStr off upc).1 =
      history ++
        [{ time := timeStr, type := btype, data := bdata,
           info := some (app_get_product_info bdata off upc).1 }] := by
  constructor
  · simp [processDetection, htrig]
  · simp [appProcessDetection, hnew]

/-- Witness for the amended C6 at a fresh scanner state and empty app
history. -/
theorem C6_amended_record_shape_witness :
    (processDetection { } "EAN13" "X" 0 "t" FetchResult.error
        FetchResult.error).1.scan_history =
      [{ time := "t", type := "EAN13", data := "X", info := none }] ∧
    (appProcessDetection [] "EAN13" "X" "t" FetchResult.error
        FetchResult.error).1 =
      [{ time := "t", type := "EAN13", data := "X",
         info := some (app_get_product_info "X" FetchResult.error
           FetchResult.error).1 }] :=
  C6_amended_record_shape { } "EAN13" "X" 0 "t" FetchResult.error
    FetchResult.error (by decide) [] (by simp)

/-- C10: in the Streamlit app, once any history entry with a given payload
exists, a detection of the same payload changes nothing — no lookup is
performed and no record appended — whatever its symbology or timestamp;
and the suppression is permanent: any later step, whatever it detects,
keeps the payload present in the history. -/
theorem C10_app_payload_suppression (history : List ScanRecord)
    (btype bdata timeStr : String) (off : FetchResult OFFResponse)
    (upc : FetchResult UPCResponse)
    (hmem : bdata ∈ history.map (fun h => h.data)) :
    appProcessDetection history btype bdata timeStr off upc =
      (history, false) ∧
    ∀ (btype' bdata' timeStr' : String) (off' : FetchResult OFFResponse)
      (upc' : FetchResult UPCResponse),
      bdata ∈ ((appProcessDetection history btype' bdata' timeStr' off'
        upc').1.map (fun h => h.data)) := by
  refine ⟨by simp [appProcessDetection, hmem], ?_⟩
  intro btype' bdata' timeStr' off' upc'
  by_cases h : bdata' ∈ history.map (fun h => h.data)
  · simp only [appProcessDetection, if_pos h]
    exact hmem
  · simp only [appProcessDetection, if_neg h, List.map_append]
    exact List.mem_append_left _ hmem

/-- Witness for C10: a second sighting of payload X, now under a different
symbology, is suppressed. -/
theorem C10_app_payload_suppression_witness :
    appProcessDetection [{ time := "t", type := "QRCODE", data := "X" }]
        "EAN13" "X" "u" FetchResult.error FetchResult.error =
      ([{ time := "t", type := "QRCODE", data := "X" }], false) :=
  (C10_app_payload_suppression
    [{ time := "t", type := "QRCODE", data := "X" }] "EAN13" "X" "u"
    FetchResult.error FetchResult.error (by decide)).1

end BarcodeScanner

namespace BarcodeScanner

/-- Folding `appendRecord` only concatenates on the right. -/
theorem foldl_appendRecord (rs : List ScanRecord) :
    ∀ acc : List ScanRecord, rs.foldl appendRecord acc = acc ++ rs := by
  induction rs with
  | nil => intro acc; simp
  | cons r rs ih =>
    intro acc
    rw [List.foldl_cons, ih, appendRecord]
    simp

end BarcodeScanner

namespace BarcodeScanner

/-- C8: ScanHistory is append-only.  A sequence of appends yields the old
history followed by the new records in order, so the length never
decreases and the prefix of existing records is untouched; appending
R1..Rn to the empty history makes `recent n` return exactly [R1..Rn]. -/
theorem C8_history_append_only (h rs : List ScanRecord) :
    rs.foldl appendRecord h = h ++ rs ∧
    h.length ≤ (rs.foldl appendRecord h).length ∧
    (rs.foldl appendRecord h).take h.length = h ∧
    recent (rs.foldl appendRecord ([] : List ScanRecord)) rs.length = rs := by
  refine ⟨foldl_appendRecord rs h, ?_, ?_, ?_⟩
  · rw [foldl_appendRecord rs h]
    simp
  · rw [foldl_appendRecord rs h]
    simp
  · rw [foldl_appendRecord rs []]
    simp [recent]

/-- Witness for C8 on two concrete records. -/
theorem C8_history_append_only_witness :
    [({ time := "a", type := "QRCODE", data := "1" } : ScanRecord),
        { time := "b", type := "QRCODE", data := "2" }].foldl appendRecord
      [] =
      [({ time := "a", type := "QRCODE", data := "1" } : ScanRecord),
        { time := "b", type := "QRCODE", data := "2" }] :=
  (C8_history_append_only []
    [{ time := "a", type := "QRCODE", data := "1" },
     { time := "b", type := "QRCODE", data := "2" }]).1

/-- C9: for every frame, `preprocess_frame` returns exactly 8 labeled
variants in the fixed source order — original, grayscale, Gaussian-blurred
grayscale, adaptive threshold, fixed binary threshold, Otsu threshold,
CLAHE, sharpened — each derived deterministically from the frame (variants
3-8 from its grayscale).  The embedding is a total function of the frame
and the OpenCV interface, so it is deterministic and succeeds on every
frame, degenerate ones included. -/
theorem C9_preprocess_variants {Frame : Type} (cv2 : CV2 Frame)
    (frame : Frame) :
    (preprocess_frame cv2 frame).length = 8 ∧
    (preprocess_frame cv2 frame).map Prod.fst =
      ["Original", "Grayscale", "Blurred", "Adaptive Threshold", "Binary",
       "Otsu", "CLAHE", "Sharpened"] ∧
    preprocess_frame cv2 frame =
      [("Original", frame),
       ("Grayscale", cv2.cvtColorGray frame),
       ("Blurred", cv2.gaussianBlur (cv2.cvtColorGray frame)),
       ("Adaptive Threshold", cv2.adaptiveThreshold (cv2.cvtColorGray frame)),
       ("Binary", cv2.binaryThreshold (cv2.cvtColorGray frame)),
       ("Otsu", cv2.otsuThreshold (cv2.cvtColorGray frame)),
       ("CLAHE", cv2.claheApply (cv2.cvtColorGray frame)),
       ("Sharpened", cv2.sharpen (cv2.cvtColorGray frame))] :=
  ⟨rfl, rfl, rfl⟩

/-- Witness for C9 on a degenerate one-pixel frame model. -/
theorem C9_preprocess_variants_witness :
    (preprocess_frame (CV2.mk id id id id id id id) (0 : Nat)).map Prod.fst =
      ["Original", "Grayscale", "Blurred", "Adaptive Threshold", "Binary",
       "Otsu", "CLAHE", "Sharpened"] :=
  (C9_preprocess_variants (CV2.mk id id id id id id id) 0).2.1

end BarcodeScanner

namespace BarcodeScanner

/-- The nested variant/detection loops thread one state, so they equal a
single fold over the concatenation of the per-variant detection lists. -/
theorem foldl_dedup_flatten {G : Type} (L : List (List (RawDetection G))) :
    ∀ st : List String × List (RawDetection G),
      L.foldl (fun st dets => dets.foldl dedupStep st) st =
        L.flatten.foldl dedupStep st := by
  induction L with
  | nil => intro st; rfl
  | cons a L ih =>
    intro st
    rw [List.foldl_cons, List.flatten_cons, List.foldl_append, ih]

/-- Membership in the deduplicated output: an element is collected exactly
when its key is not blocked by the initial seen-set and it is the first
element of the remaining input bearing its key. -/
theorem mem_foldl_dedupStep {G : Type} (b : RawDetection G)
    (l : List (RawDetection G)) :
    ∀ st : List String × List (RawDetection G),
      b ∈ (l.foldl dedupStep st).2 ↔
        b ∈ st.2 ∨ (scanKey b ∉ st.1 ∧
          l.find? (fun x => scanKey x == scanKey b) = some b) := by
  induction l with
  | nil => intro st; simp
  | cons a l ih =>
    intro st
    rw [List.foldl_cons]
    by_cases ha : scanKey a ∈ st.1
    · rw [show dedupStep st a = st from by simp [dedupStep, ha], ih]
      by_cases hk : scanKey a = scanKey b
      · rw [List.find?_cons_of_pos _ (by simp [hk])]
        have hb : scanKey b ∈ st.1 := hk ▸ ha
        simp [hb]
      · rw [List.find?_cons_of_neg _ (by simp [hk])]
    · rw [show dedupStep st a = (st.1 ++ [scanKey a], st.2 ++ [a]) from by
        simp [dedupStep, ha], ih]
      by_cases hk : scanKey a = scanKey b
      · rw [List.find?_cons_of_pos _ (by simp [hk])]
        have hb1 : scanKey b ∉ st.1 := by rw [← hk]; exact ha
        constructor
        · rintro (h | ⟨h1, h2⟩)
          · rcases List.mem_append.1 h with h | h
            · exact Or.inl h
            · rw [List.mem_singleton] at h
              subst h
              exact Or.inr ⟨hb1, rfl⟩
          · exact absurd (List.mem_append_right st.1
              (by simp [hk])) h1
        · rintro (h | ⟨h1, h2⟩)
          · exact Or.inl (List.mem_append_left _ h)
          · injection h2 with h2
            subst h2
            exact Or.inl (List.mem_append_right _ (by simp))
      · rw [List.find?_cons_of_neg _ (by simp [hk])]
        have hk' : scanKey b ≠ scanKey a := fun h => hk h.symm
        have e1 : (b ∈ st.2 ++ [a]) ↔ b ∈ st.2 := by
          rw [List.mem_append, List.mem_singleton]
          constructor
          · rintro (h | rfl)
            · exact h
            · exact absurd rfl hk
          · exact Or.inl
        have e2 : (scanKey b ∉ st.1 ++ [scanKey a]) ↔ scanKey b ∉ st.1 := by
          rw [List.mem_append, List.mem_singleton]
          simp [hk']
        rw [e1, e2]

/-- The seen-key list stays in sync with the collected detections and
stays duplicate-free. -/
theorem nodup_foldl_dedupStep {G : Type} (l : List (RawDetection G)) :
    ∀ st : List String × List (RawDetection G),
      st.1 = st.2.map scanKey → st.1.Nodup →
      (l.foldl dedupStep st).1 = (l.foldl dedupStep st).2.map scanKey ∧
        (l.foldl dedupStep st).1.Nodup := by
  induction l with
  | nil => intro st hinv hnd; exact ⟨hinv, hnd⟩
  | cons a l ih =>
    intro st hinv hnd
    rw [List.foldl_cons]
    by_cases ha : scanKey a ∈ st.1
    · rw [show dedupStep st a = st from by simp [dedupStep, ha]]
      exact ih st hinv hnd
    · rw [show dedupStep st a = (st.1 ++ [scanKey a], st.2 ++ [a]) from by
        simp [dedupStep, ha]]
      refine ih _ ?_ ?_
      · simp [hinv]
      · simp [List.nodup_append, hnd, ha]

end BarcodeScanner

namespace BarcodeScanner

/-- C2: the decoder output contains at most one candidate per distinct
ScanKey — its keys are duplicate-free — and a detection is in the output
exactly when it is the first occurrence of its key when the per-variant
detection lists are traversed in pipeline order, so the kept candidate
(geometry included) is that first occurrence. -/
theorem C2_decoder_dedup {G : Type}
    (variants : List (List (RawDetection G))) :
    ((dedupDetections variants).map scanKey).Nodup ∧
    ∀ b : RawDetection G,
      b ∈ dedupDetections variants ↔
        variants.flatten.find? (fun x => scanKey x == scanKey b)
          = some b := by
  constructor
  · have h := nodup_foldl_dedupStep (G := G) variants.flatten ([], []) rfl
      (by simp)
    rw [dedupDetections, foldl_dedup_flatten]
    exact h.1 ▸ h.2
  · intro b
    rw [dedupDetections, foldl_dedup_flatten, mem_foldl_dedupStep]
    simp

/-- Witness for C2: two variants reporting the same key keep only the
first occurrence, with its geometry. -/
theorem C2_decoder_dedup_witness :
    ({ type := "EAN13", data := "5901234123457", geom := 0 } :
        RawDetection Nat) ∈
      dedupDetections
        [[{ type := "EAN13", data := "5901234123457", geom := 0 }],
         [{ type := "EAN13", data := "5901234123457", geom := 1 }]] :=
  ((C2_decoder_dedup
      [[{ type := "EAN13", data := "5901234123457", geom := 0 }],
       [{ type := "EAN13", data := "5901234123457", geom := 1 }]]).2
    { type := "EAN13", data := "5901234123457", geom := 0 }).mpr (by decide)

end BarcodeScanner
